import Mathlib

/-!
Shallow embedding of the StackIt Q&A forum's notification rule engine and
content operations.

The four PL/pgSQL trigger functions (`create_answer_notification`,
`create_accept_notification`, `create_vote_notification`,
`create_comment_notification`) are embedded as pure functions from the
database state and the triggering row (NEW, and OLD for the question
update) to the returned row together with at most one notification to
insert.  A PL/pgSQL `SELECT ... INTO` that finds no row leaves its target
variables NULL; a comparison `x != y` with `x` NULL is NULL, and an `IF`
on NULL does not take the branch — this is modelled with `Option` and the
corresponding `match`/`if` structure.

The client-side operations `handleVote` and `acceptAnswer` from
`QuestionDetail.tsx` are embedded as state transformers on the vote list
and on the questions/answers tables respectively.  UUIDs are modelled as
natural numbers.
-/

/-- A question row: `questions(id, title, user_id, accepted_answer_id, is_answered)`.
Fields not consulted by any trigger or claim (counts, timestamps, description)
are omitted. -/
structure Question where
  id : Nat
  title : String
  user_id : Nat
  accepted_answer_id : Option Nat
  is_answered : Bool
  deriving Repr, DecidableEq

/-- An answer row: `answers(id, question_id, user_id, is_accepted)`. -/
structure Answer where
  id : Nat
  question_id : Nat
  user_id : Nat
  is_accepted : Bool
  deriving Repr, DecidableEq

/-- A comment row: `comments(id, user_id, question_id, answer_id)`; the CHECK
constraint `comments_has_target` demands exactly one of the two targets set. -/
structure Comment where
  id : Nat
  user_id : Nat
  question_id : Option Nat
  answer_id : Option Nat
  deriving Repr, DecidableEq

/-- A vote row: `votes(id, user_id, question_id, answer_id, vote_type)` with
`vote_type` +1 or -1. -/
structure Vote where
  id : Nat
  user_id : Nat
  question_id : Option Nat
  answer_id : Option Nat
  vote_type : Int
  deriving Repr, DecidableEq

/-- A notification row as inserted by the triggers:
`notifications(user_id, type, title, message, question_id, answer_id)`;
`read` defaults to false and `id`/`created_at` are generated, so they are
not part of the inserted tuple. -/
structure Notification where
  user_id : Nat
  type : String
  title : String
  message : String
  question_id : Option Nat
  answer_id : Option Nat
  deriving Repr, DecidableEq

/-- The content-store state the triggers read from. -/
structure DB where
  questions : List Question
  answers : List Answer
  deriving Repr, DecidableEq

/-- `SELECT ... FROM public.questions WHERE id = qid` (first matching row,
NULL result modelled as `none`). -/
def lookupQuestion (db : DB) (qid : Nat) : Option Question :=
  db.questions.find? (fun q => q.id == qid)

/-- `SELECT ... FROM public.answers WHERE id = aid`. -/
def lookupAnswer (db : DB) (aid : Nat) : Option Answer :=
  db.answers.find? (fun a => a.id == aid)

/-- `public.create_answer_notification()`: AFTER INSERT ON answers.  Looks up
the parent question's owner and title; if the owner differs from the answer's
author, inserts one `answer`-type notification for the owner; returns NEW. -/
def create_answer_notification (db : DB) (new : Answer) : Answer × Option Notification :=
  match lookupQuestion db new.question_id with
  | some q =>
    if q.user_id ≠ new.user_id then
      (new, some { user_id := q.user_id, type := "answer", title := "New Answer",
                   message := "Someone answered your question: \"" ++ q.title ++ "\"",
                   question_id := some new.question_id, answer_id := some new.id })
    else (new, none)
  | none => (new, none)

/-- `public.create_accept_notification()`: AFTER UPDATE ON questions.  Fires
only when `NEW.accepted_answer_id IS NOT NULL AND (OLD.accepted_answer_id IS
NULL OR OLD.accepted_answer_id != NEW.accepted_answer_id)`; then looks up the
accepted answer's author and, if different from the question owner, inserts
one `accepted`-type notification; returns NEW. -/
def create_accept_notification (db : DB) (old new : Question) :
    Question × Option Notification :=
  match new.accepted_answer_id with
  | some aid =>
    if old.accepted_answer_id = none ∨ old.accepted_answer_id ≠ some aid then
      match lookupAnswer db aid with
      | some a =>
        if a.user_id ≠ new.user_id then
          (new, some { user_id := a.user_id, type := "accepted",
                       title := "Answer Accepted",
                       message := "Your answer was accepted for: \"" ++ new.title ++ "\"",
                       question_id := some new.id, answer_id := some aid })
        else (new, none)
      | none => (new, none)
    else (new, none)
  | none => (new, none)

/-- Owner/title resolution of `create_vote_notification`: the question branch
when `NEW.question_id IS NOT NULL`, else the answer branch joining the answer
to its parent question; yields (content owner, question title, target word). -/
def resolveVoteOwner (db : DB) (v : Vote) : Option (Nat × String × String) :=
  match v.question_id with
  | some qid => (lookupQuestion db qid).map (fun q => (q.user_id, q.title, "question"))
  | none =>
    match v.answer_id with
    | some aid =>
      match lookupAnswer db aid with
      | some a => (lookupQuestion db a.question_id).map
          (fun q => (a.user_id, q.title, "answer"))
      | none => none
    | none => none

/-- `public.create_vote_notification()`: AFTER INSERT ON votes.  Only for
`vote_type = 1`; resolves the voted content's owner; if the owner resolved and
differs from the voter, inserts one `vote`-type notification; returns NEW. -/
def create_vote_notification (db : DB) (new : Vote) : Vote × Option Notification :=
  if new.vote_type = 1 then
    match resolveVoteOwner db new with
    | some (owner, ctitle, tgt) =>
      if owner ≠ new.user_id then
        (new, some { user_id := owner, type := "vote", title := "Upvoted",
                     message := "Someone upvoted your " ++ tgt ++ " on: \"" ++ ctitle ++ "\"",
                     question_id := new.question_id, answer_id := new.answer_id })
      else (new, none)
    | none => (new, none)
  else (new, none)

/-- Owner/title/type resolution of `create_comment_notification`: the question
branch when `NEW.question_id IS NOT NULL`, else the answer branch joining
through to the parent question; yields (target owner, question title,
notification type). -/
def resolveCommentOwner (db : DB) (c : Comment) : Option (Nat × String × String) :=
  match c.question_id with
  | some qid => (lookupQuestion db qid).map
      (fun q => (q.user_id, q.title, "comment_question"))
  | none =>
    match c.answer_id with
    | some aid =>
      match lookupAnswer db aid with
      | some a => (lookupQuestion db a.question_id).map
          (fun q => (a.user_id, q.title, "comment_answer"))
      | none => none
    | none => none

/-- `public.create_comment_notification()`: AFTER INSERT ON comments.
Resolves the target owner; if resolved and different from the commenter,
inserts one notification of the resolved type; returns NEW. -/
def create_comment_notification (db : DB) (new : Comment) :
    Comment × Option Notification :=
  match resolveCommentOwner db new with
  | some (owner, qtitle, ty) =>
    if owner ≠ new.user_id then
      (new, some { user_id := owner, type := ty, title := "New Comment",
                   message := "Someone commented on your " ++
                     (if new.question_id.isSome then "question" else "answer") ++
                     ": \"" ++ qtitle ++ "\"",
                   question_id := new.question_id, answer_id := new.answer_id })
    else (new, none)
  | none => (new, none)

/-- Full store state: content tables plus the notifications table the
triggers insert into. -/
structure Store where
  questions : List Question
  answers : List Answer
  notifications : List Notification
  deriving Repr, DecidableEq

/-- The content-store view of a `Store`. -/
def Store.db (s : Store) : DB := ⟨s.questions, s.answers⟩

/-- `trigger_answer_notification` fired on a `Store`: runs the trigger
function and appends its inserted notification, if any. -/
def trigger_answer_notification (s : Store) (new : Answer) : Store × Answer :=
  let r := create_answer_notification s.db new
  ({ s with notifications := s.notifications ++ r.2.toList }, r.1)

/-- `trigger_accept_notification` fired on a `Store`. -/
def trigger_accept_notification (s : Store) (old new : Question) : Store × Question :=
  let r := create_accept_notification s.db old new
  ({ s with notifications := s.notifications ++ r.2.toList }, r.1)

/-- `trigger_vote_notification` fired on a `Store`. -/
def trigger_vote_notification (s : Store) (new : Vote) : Store × Vote :=
  let r := create_vote_notification s.db new
  ({ s with notifications := s.notifications ++ r.2.toList }, r.1)

/-- `trigger_comment_notification` fired on a `Store`. -/
def trigger_comment_notification (s : Store) (new : Comment) : Store × Comment :=
  let r := create_comment_notification s.db new
  ({ s with notifications := s.notifications ++ r.2.toList }, r.1)

/-- The vote target kind passed to `handleVote` in `QuestionDetail.tsx`
(`targetType: 'question' | 'answer'`). -/
inductive TargetType where
  | question
  | answer
  deriving Repr, DecidableEq

/-- The column filter of `handleVote`'s existing-vote query:
`.eq('user_id', user.id).eq(column, targetId)` where `column` is
`question_id` for question targets and `answer_id` for answer targets. -/
def voteMatches (uid : Nat) (tt : TargetType) (targetId : Nat) (v : Vote) : Bool :=
  v.user_id == uid &&
    (match tt with
     | .question => v.question_id == some targetId
     | .answer => v.answer_id == some targetId)

/-- `handleVote` from `QuestionDetail.tsx`.  With no logged-in user it only
shows a toast and changes nothing.  Otherwise it queries the user's existing
vote on the target with `.single()` — which yields a row exactly when the
query matches exactly one row, and null (an error, left unhandled) otherwise.
An existing vote of the same direction is deleted by id; of the opposite
direction, its `vote_type` is updated by id; with no existing vote a fresh
row is inserted carrying only the targeted column.  `freshId` stands for the
id the store generates for the insert. -/
def handleVote (user : Option Nat) (tt : TargetType) (targetId : Nat)
    (voteType : Int) (votes : List Vote) (freshId : Nat) : List Vote :=
  match user with
  | none => votes
  | some uid =>
    match votes.filter (voteMatches uid tt targetId) with
    | [v] =>
      if v.vote_type = voteType then
        votes.filter (fun w => !(w.id == v.id))
      else
        votes.map (fun w => if w.id == v.id then { w with vote_type := voteType } else w)
    | _ =>
      votes ++ [{ id := freshId, user_id := uid,
                  question_id := match tt with | .question => some targetId | .answer => none,
                  answer_id := match tt with | .answer => some targetId | .question => none,
                  vote_type := voteType }]

/-- At most one vote row per (user, target) pair, the pair being keyed
exactly as `handleVote`'s lookup keys it. -/
def atMostOnePerPair (votes : List Vote) : Prop :=
  ∀ uid tt targetId, (votes.filter (voteMatches uid tt targetId)).length ≤ 1

/-- `acceptAnswer` from `QuestionDetail.tsx`.  Requires a logged-in user who
owns the question loaded from `id`; then updates
`questions SET accepted_answer_id = answerId, is_answered = true WHERE id = id`
and `answers SET is_accepted = true WHERE id = answerId`.  It never clears
`is_accepted` on any other answer. -/
def acceptAnswer (db : DB) (user : Option Nat) (qid : Nat) (answerId : Nat) : DB :=
  match user, lookupQuestion db qid with
  | some uid, some q =>
    if q.user_id = uid then
      { questions := db.questions.map (fun q2 =>
          if q2.id == qid then
            { q2 with accepted_answer_id := some answerId, is_answered := true }
          else q2),
        answers := db.answers.map (fun a =>
          if a.id == answerId then { a with is_accepted := true } else a) }
    else db
  | _, _ => db

/-- The spec's answer-level invariant: `is_accepted` is true iff the answer's
id equals its parent question's `accepted_answer_id` (Boolean checker). -/
def answerAcceptedInv (db : DB) : Bool :=
  db.answers.all (fun a =>
    db.questions.all (fun q =>
      !(a.question_id == q.id) || (a.is_accepted == (q.accepted_answer_id == some a.id))))

/-- The spec's question-level invariant: `is_answered` is true iff
`accepted_answer_id` is non-null (Boolean checker). -/
def questionAnsweredInv (db : DB) : Bool :=
  db.questions.all (fun q => q.is_answered == q.accepted_answer_id.isSome)

/-- One invocation of `handleVote` (the logged-in user if any, the target,
the requested direction, and the id the store would assign to an insert). -/
structure VoteOp where
  user : Option Nat
  tt : TargetType
  targetId : Nat
  voteType : Int
  freshId : Nat

/-- A sequence of `handleVote` calls applied to an initially empty vote
table. -/
def runVoteOps (ops : List VoteOp) : List Vote :=
  ops.foldl (fun vs op => handleVote op.user op.tt op.targetId op.voteType vs op.freshId) []

/-- The exact condition under which `create_accept_notification` inserts a
row: the new `accepted_answer_id` is non-null and changed, the referenced
answer exists, and its author differs from the question owner. -/
def acceptNotifCond (db : DB) (old new : Question) : Prop :=
  ∃ aid a, new.accepted_answer_id = some aid ∧
    (old.accepted_answer_id = none ∨ old.accepted_answer_id ≠ some aid) ∧
    lookupAnswer db aid = some a ∧ a.user_id ≠ new.user_id

/-! Concrete fixtures used by witnesses and counterexamples: question 1
("How to sort a list?") owned by user 10, answer 2 on it by user 20,
answer 4 on it by user 10 (the question owner's own answer). -/

/-- Question 1, owned by user 10, nothing accepted. -/
def qA : Question := ⟨1, "How to sort a list?", 10, none, false⟩

/-- Answer 2 on question 1, by user 20. -/
def ansB : Answer := ⟨2, 1, 20, false⟩

/-- Answer 4 on question 1, by the question owner (user 10). -/
def ansOwn : Answer := ⟨4, 1, 10, false⟩

/-- The base content store for the fixtures. -/
def db0 : DB := ⟨[qA], [ansB, ansOwn]⟩

/-- The empty content store. -/
def dbE : DB := ⟨[], []⟩

/-- Question 1 after an update accepting answer 4, which is the question
owner's own answer (the self-accept scenario). -/
def qSelfAcc : Question := ⟨1, "How to sort a list?", 10, some 4, true⟩

/-- Question 1 with answer 2 already accepted (for idempotence and
re-accept scenarios). -/
def qAcc2 : Question := ⟨1, "How to sort a list?", 10, some 2, true⟩

/-- Question 1 pointing at a nonexistent answer 99 (for the missing-parent
scenarios). -/
def qAcc99 : Question := ⟨1, "How to sort a list?", 10, some 99, true⟩

/-- Answer 2 marked accepted (state after user 10 accepted answer 2). -/
def ansBAcc : Answer := ⟨2, 1, 20, true⟩

/-- Answer 3 on question 1 by user 30, not accepted. -/
def ansC : Answer := ⟨3, 1, 30, false⟩

/-- State in which answer 2 is the accepted answer of question 1 and both
spec invariants hold; accepting answer 3 from here exhibits the stale
`is_accepted` flag on answer 2. -/
def db8 : DB := ⟨[qAcc2], [ansBAcc, ansC]⟩

/-- A single stored upvote by user 5 on question 1. -/
def v0 : Vote := ⟨1, 5, some 1, none, 1⟩

/-- Answer 5 on question 1 posted by the question owner (user 10). -/
def ansSelf : Answer := ⟨5, 1, 10, false⟩

/-- An upvote by user 10 on their own question 1. -/
def vSelf : Vote := ⟨6, 10, some 1, none, 1⟩

/-- A comment by user 10 on their own question 1. -/
def cSelf : Comment := ⟨7, 10, some 1, none⟩

/-- An upvote by user 20 on question 1 (owned by user 10). -/
def vUp : Vote := ⟨8, 20, some 1, none, 1⟩

/-- A downvote by user 20 on question 1. -/
def vDown : Vote := ⟨9, 20, some 1, none, -1⟩

/-- A comment by user 20 on question 1 (owned by user 10). -/
def cQ : Comment := ⟨11, 20, some 1, none⟩

/-! Theorems. -/

/-- Every branch of `create_answer_notification` returns NEW as the row. -/
theorem create_answer_notification_fst (db : DB) (a : Answer) :
    (create_answer_notification db a).1 = a := by
  unfold create_answer_notification
  split
  · split <;> rfl
  · rfl

/-- Every branch of `create_accept_notification` returns NEW as the row. -/
theorem create_accept_notification_fst (db : DB) (old new : Question) :
    (create_accept_notification db old new).1 = new := by
  unfold create_accept_notification
  split
  · split
    · split
      · split <;> rfl
      · rfl
    · rfl
  · rfl

/-- Every branch of `create_vote_notification` returns NEW as the row. -/
theorem create_vote_notification_fst (db : DB) (v : Vote) :
    (create_vote_notification db v).1 = v := by
  unfold create_vote_notification
  split
  · split
    · split <;> rfl
    · rfl
  · rfl

/-- Every branch of `create_comment_notification` returns NEW as the row. -/
theorem create_comment_notification_fst (db : DB) (c : Comment) :
    (create_comment_notification db c).1 = c := by
  unfold create_comment_notification
  split
  · split <;> rfl
  · rfl

/-- C3: an Answer insert whose author differs from the parent question's
owner creates exactly one `answer`-type notification addressed to the
question owner, carrying the question's id and the new answer's id. -/
theorem answer_insert_notifies_owner (db : DB) (a : Answer) (q : Question)
    (hq : lookupQuestion db a.question_id = some q)
    (hne : q.user_id ≠ a.user_id) :
    (create_answer_notification db a).2 =
      some { user_id := q.user_id, type := "answer", title := "New Answer",
             message := "Someone answered your question: \"" ++ q.title ++ "\"",
             question_id := some a.question_id, answer_id := some a.id } := by
  simp [create_answer_notification, hq, hne]

/-- Witness for C3: user 20 answers question 1 owned by user 10. -/
theorem answer_insert_notifies_owner_witness :
    (create_answer_notification db0 ansB).2 =
      some { user_id := 10, type := "answer", title := "New Answer",
             message := "Someone answered your question: \"How to sort a list?\"",
             question_id := some 1, answer_id := some 2 } :=
  answer_insert_notifies_owner db0 ansB qA rfl (by decide)

/-- C1: across all four event kinds (answer insert, accepted-answer update,
vote insert, comment insert), when the acting user equals the resolved
owner of the target content, no notification row is created. -/
theorem no_self_notification :
    (∀ (db : DB) (a : Answer) (q : Question),
        lookupQuestion db a.question_id = some q → q.user_id = a.user_id →
        (create_answer_notification db a).2 = none) ∧
    (∀ (db : DB) (old new : Question) (aid : Nat) (ans : Answer),
        new.accepted_answer_id = some aid → lookupAnswer db aid = some ans →
        ans.user_id = new.user_id →
        (create_accept_notification db old new).2 = none) ∧
    (∀ (db : DB) (v : Vote) (o : Nat) (t w : String),
        resolveVoteOwner db v = some (o, t, w) → o = v.user_id →
        (create_vote_notification db v).2 = none) ∧
    (∀ (db : DB) (c : Comment) (o : Nat) (t ty : String),
        resolveCommentOwner db c = some (o, t, ty) → o = c.user_id →
        (create_comment_notification db c).2 = none) := by
  refine ⟨?_, ?_, ?_, ?_⟩
  · intro db a q hq heq
    simp [create_answer_notification, hq, heq]
  · intro db old new aid ans hacc hlook heq
    by_cases hch : old.accepted_answer_id = none ∨ old.accepted_answer_id ≠ some aid
    · simp [create_accept_notification, hacc, hch, hlook, heq]
    · simp [create_accept_notification, hacc, hch]
  · intro db v o t w hres ho
    by_cases h1 : v.vote_type = 1
    · simp [create_vote_notification, h1, hres, ho]
    · simp [create_vote_notification, h1]
  · intro db c o t ty hres ho
    simp [create_comment_notification, hres, ho]

/-- Witness for C1: each of the four events performed by the owner of the
target (user 10 acting on their own content) creates no notification. -/
theorem no_self_notification_witness :
    (create_answer_notification db0 ansSelf).2 = none ∧
    (create_accept_notification db0 qA qSelfAcc).2 = none ∧
    (create_vote_notification db0 vSelf).2 = none ∧
    (create_comment_notification db0 cSelf).2 = none :=
  ⟨no_self_notification.1 db0 ansSelf qA rfl rfl,
   no_self_notification.2.1 db0 qA qSelfAcc 4 ansOwn rfl rfl rfl,
   no_self_notification.2.2.1 db0 vSelf 10 "How to sort a list?" "question" rfl rfl,
   no_self_notification.2.2.2 db0 cSelf 10 "How to sort a list?" "comment_question" rfl rfl⟩

/-- C5: when the referenced parent content is missing, each trigger
function creates no notification and still returns NEW — a silent no-op
raising nothing, also for the two functions without an explicit null check
(the NULL owner makes the inequality test fail). -/
theorem missing_parent_silent_noop :
    (∀ (db : DB) (a : Answer), lookupQuestion db a.question_id = none →
        create_answer_notification db a = (a, none)) ∧
    (∀ (db : DB) (old new : Question) (aid : Nat),
        new.accepted_answer_id = some aid → lookupAnswer db aid = none →
        create_accept_notification db old new = (new, none)) ∧
    (∀ (db : DB) (v : Vote), resolveVoteOwner db v = none →
        create_vote_notification db v = (v, none)) ∧
    (∀ (db : DB) (c : Comment), resolveCommentOwner db c = none →
        create_comment_notification db c = (c, none)) := by
  refine ⟨?_, ?_, ?_, ?_⟩
  · intro db a h
    simp [create_answer_notification, h]
  · intro db old new aid hacc h
    by_cases hch : old.accepted_answer_id = none ∨ old.accepted_answer_id ≠ some aid
    · simp [create_accept_notification, hacc, hch, h]
    · simp [create_accept_notification, hacc, hch]
  · intro db v h
    by_cases h1 : v.vote_type = 1
    · simp [create_vote_notification, h1, h]
    · simp [create_vote_notification, h1]
  · intro db c h
    simp [create_comment_notification, h]

/-- Witness for C5: events referencing content absent from the store (an
answer whose question is not stored, an accept pointing at nonexistent
answer 99, a vote and a comment on a question not stored) are silent
no-ops. -/
theorem missing_parent_silent_noop_witness :
    create_answer_notification dbE ansB = (ansB, none) ∧
    create_accept_notification db0 qA qAcc99 = (qAcc99, none) ∧
    create_vote_notification dbE vUp = (vUp, none) ∧
    create_comment_notification dbE cQ = (cQ, none) :=
  ⟨missing_parent_silent_noop.1 dbE ansB rfl,
   missing_parent_silent_noop.2.1 db0 qA qAcc99 99 rfl rfl,
   missing_parent_silent_noop.2.2.1 dbE vUp rfl,
   missing_parent_silent_noop.2.2.2 dbE cQ rfl⟩

/-- C10: each trigger returns the triggering row (NEW) unchanged and does
not touch the content tables; its only write effect is appending at most
one row to the notifications table. -/
theorem triggers_return_new_unchanged (s : Store) :
    (∀ a : Answer, (trigger_answer_notification s a).2 = a ∧
        (trigger_answer_notification s a).1.questions = s.questions ∧
        (trigger_answer_notification s a).1.answers = s.answers ∧
        ((trigger_answer_notification s a).1.notifications = s.notifications ∨
          ∃ n, (trigger_answer_notification s a).1.notifications = s.notifications ++ [n])) ∧
    (∀ old new : Question, (trigger_accept_notification s old new).2 = new ∧
        (trigger_accept_notification s old new).1.questions = s.questions ∧
        (trigger_accept_notification s old new).1.answers = s.answers ∧
        ((trigger_accept_notification s old new).1.notifications = s.notifications ∨
          ∃ n, (trigger_accept_notification s old new).1.notifications = s.notifications ++ [n])) ∧
    (∀ v : Vote, (trigger_vote_notification s v).2 = v ∧
        (trigger_vote_notification s v).1.questions = s.questions ∧
        (trigger_vote_notification s v).1.answers = s.answers ∧
        ((trigger_vote_notification s v).1.notifications = s.notifications ∨
          ∃ n, (trigger_vote_notification s v).1.notifications = s.notifications ++ [n])) ∧
    (∀ c : Comment, (trigger_comment_notification s c).2 = c ∧
        (trigger_comment_notification s c).1.questions = s.questions ∧
        (trigger_comment_notification s c).1.answers = s.answers ∧
        ((trigger_comment_notification s c).1.notifications = s.notifications ∨
          ∃ n, (trigger_comment_notification s c).1.notifications = s.notifications ++ [n])) := by
  refine ⟨?_, ?_, ?_, ?_⟩
  · intro a
    refine ⟨create_answer_notification_fst s.db a, rfl, rfl, ?_⟩
    cases h : (create_answer_notification s.db a).2 with
    | none => left; simp [trigger_answer_notification, h]
    | some n => right; exact ⟨n, by simp [trigger_answer_notification, h]⟩
  · intro old new
    refine ⟨create_accept_notification_fst s.db old new, rfl, rfl, ?_⟩
    cases h : (create_accept_notification s.db old new).2 with
    | none => left; simp [trigger_accept_notification, h]
    | some n => right; exact ⟨n, by simp [trigger_accept_notification, h]⟩
  · intro v
    refine ⟨create_vote_notification_fst s.db v, rfl, rfl, ?_⟩
    cases h : (create_vote_notification s.db v).2 with
    | none => left; simp [trigger_vote_notification, h]
    | some n => right; exact ⟨n, by simp [trigger_vote_notification, h]⟩
  · intro c
    refine ⟨create_comment_notification_fst s.db c, rfl, rfl, ?_⟩
    cases h : (create_comment_notification s.db c).2 with
    | none => left; simp [trigger_comment_notification, h]
    | some n => right; exact ⟨n, by simp [trigger_comment_notification, h]⟩

/-- C4: a Vote insert creates a notification only when `vote_type` is +1,
the voted content's owner resolves, and the voter differs from that owner;
then exactly one `vote`-type notification addressed to that owner is
created; a downvote (`vote_type` = -1) never creates one. -/
theorem vote_notification_upvote_only :
    (∀ (db : DB) (v : Vote), ((create_vote_notification db v).2).isSome = true →
        v.vote_type = 1 ∧
          ∃ o t w, resolveVoteOwner db v = some (o, t, w) ∧ o ≠ v.user_id) ∧
    (∀ (db : DB) (v : Vote) (o : Nat) (t w : String),
        v.vote_type = 1 → resolveVoteOwner db v = some (o, t, w) → o ≠ v.user_id →
        (create_vote_notification db v).2 =
          some { user_id := o, type := "vote", title := "Upvoted",
                 message := "Someone upvoted your " ++ w ++ " on: \"" ++ t ++ "\"",
                 question_id := v.question_id, answer_id := v.answer_id }) ∧
    (∀ (db : DB) (v : Vote), v.vote_type = -1 →
        (create_vote_notification db v).2 = none) := by
  refine ⟨?_, ?_, ?_⟩
  · intro db v h
    by_cases h1 : v.vote_type = 1
    · refine ⟨h1, ?_⟩
      cases hres : resolveVoteOwner db v with
      | none => simp [create_vote_notification, h1, hres] at h
      | some x =>
        obtain ⟨o, t, w⟩ := x
        by_cases ho : o ≠ v.user_id
        · exact ⟨o, t, w, rfl, ho⟩
        · simp [create_vote_notification, h1, hres, ho] at h
    · simp [create_vote_notification, h1] at h
  · intro db v o t w h1 hres ho
    simp [create_vote_notification, h1, hres, ho]
  · intro db v h
    have h1 : ¬(v.vote_type = 1) := by rw [h]; decide
    simp [create_vote_notification, h1]

/-- Witness for C4: user 20's upvote on question 1 (owned by user 10)
creates the `vote` notification for user 10; user 20's downvote on the
same question creates none. -/
theorem vote_notification_upvote_only_witness :
    (create_vote_notification db0 vUp).2 =
      some { user_id := 10, type := "vote", title := "Upvoted",
             message := "Someone upvoted your question on: \"How to sort a list?\"",
             question_id := some 1, answer_id := none } ∧
    (create_vote_notification db0 vDown).2 = none :=
  ⟨vote_notification_upvote_only.2.1 db0 vUp 10 "How to sort a list?" "question"
      rfl rfl (by decide),
   vote_notification_upvote_only.2.2 db0 vDown rfl⟩


/-- The notification type chosen by the comment resolver is determined by
which target field the comment set: `comment_question` when `question_id`
is non-null, else `comment_answer`. -/
theorem resolveCommentOwner_type (db : DB) (c : Comment) (o : Nat) (t ty : String)
    (hres : resolveCommentOwner db c = some (o, t, ty)) :
    ty = if c.question_id.isSome then "comment_question" else "comment_answer" := by
  unfold resolveCommentOwner at hres
  split at hres
  next qid heq =>
    rw [heq]
    cases hl : lookupQuestion db qid with
    | none => rw [hl] at hres; simp at hres
    | some q =>
      rw [hl] at hres
      simp at hres
      simp [hres.2.2]
  next heq =>
    rw [heq]
    split at hres
    next aid haeq =>
      split at hres
      next a hla =>
        cases hlq : lookupQuestion db a.question_id with
        | none => rw [hlq] at hres; simp at hres
        | some q =>
          rw [hlq] at hres
          simp at hres
          simp [hres.2.2]
      next hla => simp at hres
    next haeq => simp at hres

/-- C6: a Comment insert whose target owner resolves to someone other than
the commenter creates exactly one notification addressed to that owner,
with `comment_question` type when the comment's `question_id` is set and
`comment_answer` type when its `answer_id` is set, carrying the comment's
own target fields. -/
theorem comment_insert_notifies_target_owner (db : DB) (c : Comment)
    (o : Nat) (t ty : String)
    (hres : resolveCommentOwner db c = some (o, t, ty))
    (hne : o ≠ c.user_id) :
    (create_comment_notification db c).2 =
      some { user_id := o, type := ty, title := "New Comment",
             message := "Someone commented on your " ++
               (if c.question_id.isSome then "question" else "answer") ++
               ": \"" ++ t ++ "\"",
             question_id := c.question_id, answer_id := c.answer_id } ∧
    (c.question_id.isSome = true → ty = "comment_question") ∧
    (c.question_id = none → ty = "comment_answer") := by
  refine ⟨?_, ?_, ?_⟩
  · simp [create_comment_notification, hres, hne]
  · intro hq
    have h := resolveCommentOwner_type db c o t ty hres
    simpa [hq] using h
  · intro hqn
    have h := resolveCommentOwner_type db c o t ty hres
    simpa [hqn] using h

/-- Witness for C6: user 20 comments on question 1 (owned by user 10); one
`comment_question` notification for user 10 is created. -/
theorem comment_insert_notifies_target_owner_witness :
    (create_comment_notification db0 cQ).2 =
      some { user_id := 10, type := "comment_question", title := "New Comment",
             message := "Someone commented on your question: \"How to sort a list?\"",
             question_id := some 1, answer_id := none } :=
  (comment_insert_notifies_target_owner db0 cQ 10 "How to sort a list?"
      "comment_question" rfl (by decide)).1

/-- C2 counterexample: updating question 1 from no accepted answer to
accepted answer 4 satisfies the claim's firing condition
(`accepted_answer_id` non-null after the update and null before), yet no
notification is created, because answer 4 is owned by the question owner
(user 10) — a suppression condition the claim does not mention. -/
theorem accept_claim_counterexample :
    qA.accepted_answer_id = none ∧ qSelfAcc.accepted_answer_id = some 4 ∧
    (create_accept_notification db0 qA qSelfAcc).2 = none :=
  ⟨rfl, rfl, rfl⟩

/-- C2 (amended): a Question update creates an `accepted`-type notification
iff the new `accepted_answer_id` is non-null and either was null before or
changed, the referenced answer exists, and its author differs from the
question owner; at most one notification is created, addressed to the
answer author; re-applying the update with the same `accepted_answer_id`
creates none. -/
theorem accept_notification_characterization (db : DB) (old new : Question) :
    (((create_accept_notification db old new).2).isSome = true ↔
        acceptNotifCond db old new) ∧
    (old.accepted_answer_id = new.accepted_answer_id →
        (create_accept_notification db old new).2 = none) ∧
    (∀ n : Notification, (create_accept_notification db old new).2 = some n →
        ∃ aid a, new.accepted_answer_id = some aid ∧ lookupAnswer db aid = some a ∧
          n.user_id = a.user_id ∧ n.type = "accepted" ∧
          n.question_id = some new.id ∧ n.answer_id = some aid) := by
  refine ⟨⟨?_, ?_⟩, ?_, ?_⟩
  · intro h
    cases hacc : new.accepted_answer_id with
    | none => simp [create_accept_notification, hacc] at h
    | some aid =>
      by_cases hch : old.accepted_answer_id = none ∨ old.accepted_answer_id ≠ some aid
      · cases hlook : lookupAnswer db aid with
        | none => simp [create_accept_notification, hacc, hch, hlook] at h
        | some a =>
          by_cases hne : a.user_id ≠ new.user_id
          · exact ⟨aid, a, hacc, hch, hlook, hne⟩
          · simp [create_accept_notification, hacc, hch, hlook, hne] at h
      · simp [create_accept_notification, hacc, hch] at h
  · rintro ⟨aid, a, hacc, hch, hlook, hne⟩
    simp [create_accept_notification, hacc, hch, hlook, hne]
  · intro heq
    cases hacc : new.accepted_answer_id with
    | none => simp [create_accept_notification, hacc]
    | some aid =>
      have hch : ¬(old.accepted_answer_id = none ∨ old.accepted_answer_id ≠ some aid) := by
        rw [heq, hacc]
        simp
      simp [create_accept_notification, hacc, hch]
  · intro n hn
    cases hacc : new.accepted_answer_id with
    | none => simp [create_accept_notification, hacc] at hn
    | some aid =>
      by_cases hch : old.accepted_answer_id = none ∨ old.accepted_answer_id ≠ some aid
      · cases hlook : lookupAnswer db aid with
        | none => simp [create_accept_notification, hacc, hch, hlook] at hn
        | some a =>
          by_cases hne : a.user_id ≠ new.user_id
          · refine ⟨aid, a, rfl, hlook, ?_⟩
            simp [create_accept_notification, hacc, hch, hlook, hne] at hn
            rw [← hn]
            exact ⟨rfl, rfl, rfl, rfl⟩
          · simp [create_accept_notification, hacc, hch, hlook, hne] at hn
      · simp [create_accept_notification, hacc, hch] at hn

/-- Witness for C2 (amended): re-applying the accept of answer 2 on
question 1 (OLD and NEW both carry `accepted_answer_id` = 2) creates no
additional notification. -/
theorem accept_notification_characterization_witness :
    (create_accept_notification db0 qAcc2 qAcc2).2 = none :=
  (accept_notification_characterization db0 qAcc2 qAcc2).2.1 rfl

/-- C8: in state `db8` both spec invariants hold (answer 2 is the accepted
answer of question 1 and is the only answer flagged `is_accepted`), but
after the question owner accepts answer 3 via `acceptAnswer`, answer 2
keeps `is_accepted = true` while `accepted_answer_id` is 3 — the
answer-level equivalence is violated, because `acceptAnswer` never clears
the previously accepted answer's flag.  The question-level equivalence
still holds. -/
theorem acceptAnswer_leaves_stale_accepted_flag :
    answerAcceptedInv db8 = true ∧ questionAnsweredInv db8 = true ∧
    questionAnsweredInv (acceptAnswer db8 (some 10) 1 3) = true ∧
    answerAcceptedInv (acceptAnswer db8 (some 10) 1 3) = false := by
  decide

/-- Filtering a filtered list yields no more matches than filtering the
original list. -/
theorem length_filter_filter_le (p q : Vote → Bool) (l : List Vote) :
    ((l.filter q).filter p).length ≤ (l.filter p).length :=
  List.Sublist.length_le (List.Sublist.filter p (List.filter_sublist l))

/-- Mapping a function that does not affect the filter predicate preserves
the number of matches. -/
theorem length_filter_map_eq (f : Vote → Vote) (p : Vote → Bool)
    (hf : ∀ v, p (f v) = p v) (l : List Vote) :
    ((l.map f).filter p).length = (l.filter p).length := by
  induction l with
  | nil => rfl
  | cons v tl ih =>
    simp only [List.map_cons, List.filter_cons, hf v]
    cases hp : p v <;> simp [hp, ih]

/-- One `handleVote` call preserves the at-most-one-vote-per-(user, target)
invariant: it deletes or retypes the single existing matching vote, and
inserts a fresh row only when no vote matched. -/
theorem handleVote_preserves_atMostOne (user : Option Nat) (tt : TargetType)
    (targetId : Nat) (voteType : Int) (votes : List Vote) (freshId : Nat)
    (hinv : atMostOnePerPair votes) :
    atMostOnePerPair (handleVote user tt targetId voteType votes freshId) := by
  cases user with
  | none => simpa [handleVote] using hinv
  | some uid =>
    intro uid' tt' tid'
    cases hm : votes.filter (voteMatches uid tt targetId) with
    | nil =>
      cases tt with
      | question =>
        simp only [handleVote, hm]
        rw [List.filter_append, List.length_append]
        by_cases hp : voteMatches uid' tt' tid'
            { id := freshId, user_id := uid, question_id := some targetId,
              answer_id := none, vote_type := voteType } = true
        · have key : uid' = uid ∧ tt' = TargetType.question ∧ tid' = targetId := by
            cases tt' with
            | question =>
              simp [voteMatches] at hp
              exact ⟨hp.1.symm, rfl, hp.2.symm⟩
            | answer => simp [voteMatches] at hp
          obtain ⟨h1, h2, h3⟩ := key
          subst h1; subst h2; subst h3
          rw [hm]
          simpa using List.length_filter_le _ _
        · rw [List.filter_cons]
          simp only [hp]
          simpa using hinv uid' tt' tid'
      | answer =>
        simp only [handleVote, hm]
        rw [List.filter_append, List.length_append]
        by_cases hp : voteMatches uid' tt' tid'
            { id := freshId, user_id := uid, question_id := none,
              answer_id := some targetId, vote_type := voteType } = true
        · have key : uid' = uid ∧ tt' = TargetType.answer ∧ tid' = targetId := by
            cases tt' with
            | question => simp [voteMatches] at hp
            | answer =>
              simp [voteMatches] at hp
              exact ⟨hp.1.symm, rfl, hp.2.symm⟩
          obtain ⟨h1, h2, h3⟩ := key
          subst h1; subst h2; subst h3
          rw [hm]
          simpa using List.length_filter_le _ _
        · rw [List.filter_cons]
          simp only [hp]
          simpa using hinv uid' tt' tid'
    | cons v rest =>
      cases rest with
      | nil =>
        simp only [handleVote, hm]
        by_cases hvt : v.vote_type = voteType
        · rw [if_pos hvt]
          exact le_trans (length_filter_filter_le _ _ votes) (hinv uid' tt' tid')
        · rw [if_neg hvt]
          have hf : ∀ w, voteMatches uid' tt' tid'
              (if w.id == v.id then { w with vote_type := voteType } else w) =
              voteMatches uid' tt' tid' w := by
            intro w
            by_cases hw : (w.id == v.id) = true
            · simp [hw, voteMatches]
            · simp [hw]
          rw [length_filter_map_eq _ _ hf votes]
          exact hinv uid' tt' tid'
      | cons v2 rest2 =>
        exfalso
        have h2 := hinv uid tt targetId
        rw [hm] at h2
        simp at h2

/-- Any fold of `handleVote` calls over an invariant-satisfying vote table
keeps the invariant. -/
theorem foldl_handleVote_inv (ops : List VoteOp) (vs : List Vote)
    (h : atMostOnePerPair vs) :
    atMostOnePerPair (ops.foldl
      (fun vs op => handleVote op.user op.tt op.targetId op.voteType vs op.freshId) vs) := by
  induction ops generalizing vs with
  | nil => exact h
  | cons op tl ih =>
    exact ih _ (handleVote_preserves_atMostOne _ _ _ _ _ _ h)

/-- C9: after any sequence of `handleVote` operations starting from an
empty vote table, at most one vote row exists per (user, target) pair; and
when a vote by the same user on the same target already exists, the call
replaces or cancels it and never adds a row. -/
theorem handleVote_at_most_one_vote_per_pair :
    (∀ ops : List VoteOp, atMostOnePerPair (runVoteOps ops)) ∧
    (∀ (votes : List Vote) (uid : Nat) (tt : TargetType) (targetId : Nat)
        (voteType : Int) (freshId : Nat),
        atMostOnePerPair votes →
        (votes.filter (voteMatches uid tt targetId)).length = 1 →
        (handleVote (some uid) tt targetId voteType votes freshId).length ≤ votes.length) := by
  constructor
  · intro ops
    exact foldl_handleVote_inv ops [] (by intro u t i; simp)
  · intro votes uid tt targetId voteType freshId hinv hone
    obtain ⟨v, hm⟩ : ∃ v, votes.filter (voteMatches uid tt targetId) = [v] := by
      cases hm : votes.filter (voteMatches uid tt targetId) with
      | nil => rw [hm] at hone; simp at hone
      | cons v rest =>
        cases rest with
        | nil => exact ⟨v, rfl⟩
        | cons v2 r2 => rw [hm] at hone; simp at hone
    simp only [handleVote, hm]
    by_cases hvt : v.vote_type = voteType
    · rw [if_pos hvt]
      exact List.length_filter_le _ votes
    · rw [if_neg hvt]
      exact le_of_eq (List.length_map votes _)

/-- Witness for C9: user 5 already upvoted question 1; a downvote call on
the same target does not grow the vote table (it retypes the existing
row). -/
theorem handleVote_at_most_one_vote_per_pair_witness :
    (handleVote (some 5) TargetType.question 1 (-1) [v0] 99).length ≤ [v0].length :=
  handleVote_at_most_one_vote_per_pair.2 [v0] 5 TargetType.question 1 (-1) 99
    (fun uid tt tid => List.length_filter_le _ _) (by decide)

/-- Witness for C10: firing the answer trigger on a concrete store returns
the inserted answer row unchanged. -/
theorem triggers_return_new_unchanged_witness :
    (trigger_answer_notification ⟨[qA], [ansB, ansOwn], []⟩ ansB).2 = ansB :=
  ((triggers_return_new_unchanged ⟨[qA], [ansB, ansOwn], []⟩).1 ansB).1
